import Mathlib

set_option linter.unusedVariables false
set_option linter.unnecessarySeqFocus false

/-! Shallow embedding of the AttendEase backend attendance pipeline:
the per-day attendance data model, the punch legality check, the
attendance record store (get-or-create and conditional update), the
punch processor with optional face verification, the identity
resolver with its biometric-identifier cache, and the group-capture
loop with its per-batch deduplication set.  External collaborators
(object storage, the face recognition service, the URL parser) are
modelled as explicit oracle inputs. -/

/-- A server timestamp: an abstract calendar-day index plus
hour/minute/second.  This is enough to express the lossy
`TO_CHAR(..., 'HH12:MI AM')` formatting applied by the read-back
query. -/
structure Timestamp where
  day : Nat
  hour : Nat
  minute : Nat
  second : Nat
deriving DecidableEq, Repr

/-- Two-digit zero padding, as produced by `TO_CHAR`. -/
def pad2 (n : Nat) : String :=
  if n < 10 then "0" ++ toString n else toString n

/-- The `TO_CHAR(ts, 'HH12:MI AM')` format used by the attendance read
query: 12-hour clock, minutes, and an AM/PM tag.  The day index and
the seconds are dropped. -/
def toChar12 (t : Timestamp) : String :=
  let h12 := if t.hour % 12 == 0 then 12 else t.hour % 12
  let meridiem := if t.hour % 24 < 12 then "AM" else "PM"
  pad2 h12 ++ ":" ++ pad2 t.minute ++ " " ++ meridiem

/-- A row of the `employee` table (the fields the attendance pipeline
reads: identity, display name, code, organizational references, the
cached Rekognition face identifier and the enrolled-face reference). -/
structure Employee where
  emp_id : Nat
  name : String
  emp_code : String
  designation_id : Nat
  ward_id : Nat
  face_id : Option String
  face_embedding : Option String
deriving DecidableEq, Repr

/-- A row of the `designation` table. -/
structure Designation where
  designation_id : Nat
  designation_name : String
deriving DecidableEq, Repr

/-- A row of the `wards` table. -/
structure Ward where
  ward_id : Nat
  ward_name : String
deriving DecidableEq, Repr

/-- A row of the `attendance` table: one record per employee per day,
with nullable punch-in/punch-out timestamps, per-punch evidence image
references, per-punch location fields and per-punch actor identity. -/
structure Attendance where
  attendance_id : Nat
  emp_id : Nat
  date : String
  punch_in_time : Option Timestamp
  punch_out_time : Option Timestamp
  duration : Option String
  punch_in_image : Option String
  punch_out_image : Option String
  latitude_in : Option String
  longitude_in : Option String
  in_address : Option String
  latitude_out : Option String
  longitude_out : Option String
  out_address : Option String
  punched_in_by : Option Nat
  punched_out_by : Option Nat
  ward_id : Option Nat
deriving DecidableEq, Repr

/-- The relational store visible to the attendance routes. -/
structure DB where
  employees : List Employee
  designations : List Designation
  wards : List Ward
  attendance : List Attendance
  users : List Nat
  nextAttendanceId : Nat
deriving DecidableEq, Repr

/-- The row shape produced by the attendance read query of
`getOrCreateAttendanceRecord`: punch times are already formatted with
`TO_CHAR(..., 'HH12:MI AM')`, and employee/designation/ward columns
are joined in. -/
structure AttendanceView where
  attendance_id : Nat
  date : String
  punch_in_time : Option String
  punch_out_time : Option String
  duration : Option String
  punch_in_image : Option String
  punch_out_image : Option String
  latitude_in : Option String
  longitude_in : Option String
  in_address : Option String
  latitude_out : Option String
  longitude_out : Option String
  out_address : Option String
  emp_id : Nat
  emp_code : Option String
  employee_name : Option String
  designation_name : Option String
  ward_id : Option Nat
  ward_name : Option String
deriving DecidableEq, Repr

/-- The `{status, error}` object returned by `validatePunchAttempt` on
an illegal punch. -/
structure ValidationError where
  status : Nat
  error : String
deriving DecidableEq, Repr

/-- `PUNCH_TYPES.IN`. -/
def PUNCH_IN : String := "IN"

/-- `PUNCH_TYPES.OUT`. -/
def PUNCH_OUT : String := "OUT"

/-- `validatePunchAttempt(attendance, punchType)`: the pure punch
legality check.  `none` means the punch is legal; otherwise the
returned object carries the HTTP status and message of the source. -/
def validatePunchAttempt (attendance : Option AttendanceView) (punchType : String) :
    Option ValidationError :=
  match attendance with
  | none => some { status := 404, error := "Attendance record not found" }
  | some a =>
    if punchType == PUNCH_IN && a.punch_in_time.isSome then
      some { status := 400, error := "Already punched in today" }
    else if punchType == PUNCH_OUT && a.punch_out_time.isSome then
      some { status := 400, error := "Already punched out today" }
    else if punchType == PUNCH_OUT && a.punch_in_time.isNone then
      some { status := 400, error := "Must punch in first" }
    else
      none

/-- Lookup of an employee row by primary key (`SELECT ... FROM
employee WHERE emp_id = $1`). -/
def lookupEmployee (db : DB) (empId : Nat) : Option Employee :=
  db.employees.find? (fun e => e.emp_id == empId)

/-- Lookup of a designation row by primary key. -/
def lookupDesignation (db : DB) (id : Nat) : Option Designation :=
  db.designations.find? (fun d => d.designation_id == id)

/-- Lookup of a ward row by primary key. -/
def lookupWard (db : DB) (id : Nat) : Option Ward :=
  db.wards.find? (fun w => w.ward_id == id)

/-- Lookup of an attendance row by primary key (`WHERE attendance_id
= $1`). -/
def findAttendanceRow (db : DB) (aid : Nat) : Option Attendance :=
  db.attendance.find? (fun a => a.attendance_id == aid)

/-- The row shape assembled by the read query of
`getOrCreateAttendanceRecord` from a joined attendance, employee,
designation and ward row: punch times go through `TO_CHAR`. -/
def mkAttendanceView (a : Attendance) (e : Employee) (d : Designation) (w : Ward) :
    AttendanceView :=
  { attendance_id := a.attendance_id, date := a.date,
    punch_in_time := a.punch_in_time.map toChar12,
    punch_out_time := a.punch_out_time.map toChar12,
    duration := a.duration,
    punch_in_image := a.punch_in_image, punch_out_image := a.punch_out_image,
    latitude_in := a.latitude_in, longitude_in := a.longitude_in,
    in_address := a.in_address,
    latitude_out := a.latitude_out, longitude_out := a.longitude_out,
    out_address := a.out_address,
    emp_id := e.emp_id, emp_code := some e.emp_code,
    employee_name := some e.name,
    designation_name := some d.designation_name,
    ward_id := some w.ward_id, ward_name := some w.ward_name }

/-- The `SELECT ... FROM attendance a JOIN employee e JOIN designation
d JOIN wards w WHERE a.emp_id = $1 AND a.date = $2` read query of
`getOrCreateAttendanceRecord`.  A row is returned only when every join
partner exists. -/
def readAttendance (db : DB) (empId : Nat) (date : String) : Option AttendanceView :=
  (db.attendance.find? (fun a => a.emp_id == empId && a.date == date)).bind fun a =>
  (lookupEmployee db a.emp_id).bind fun e =>
  (lookupDesignation db e.designation_id).bind fun d =>
  (lookupWard db e.ward_id).map fun w => mkAttendanceView a e d w

/-- Failures of the attendance record store. -/
inductive StoreErr where
  | empIdRequired
  | employeeNotFound
deriving DecidableEq, Repr

/-- The fresh attendance row inserted by `getOrCreateAttendanceRecord`
(`INSERT INTO attendance (emp_id, date, ward_id) VALUES ...`), seeded
with the employee's current ward. -/
def freshAttendanceRow (db : DB) (empId : Nat) (date : String) (e : Employee) : Attendance :=
  { attendance_id := db.nextAttendanceId, emp_id := empId, date := date,
    punch_in_time := none, punch_out_time := none, duration := none,
    punch_in_image := none, punch_out_image := none,
    latitude_in := none, longitude_in := none, in_address := none,
    latitude_out := none, longitude_out := none, out_address := none,
    punched_in_by := none, punched_out_by := none, ward_id := some e.ward_id }

/-- The in-memory object built by the create branch of
`getOrCreateAttendanceRecord` before the employee-details query: all
punch fields null, the ward seeded from the employee's current ward. -/
def createdBaseView (db : DB) (empId : Nat) (date : String) (e : Employee) :
    AttendanceView :=
  { attendance_id := db.nextAttendanceId, date := date,
    punch_in_time := none, punch_out_time := none, duration := none,
    punch_in_image := none, punch_out_image := none,
    latitude_in := none, longitude_in := none, in_address := none,
    latitude_out := none, longitude_out := none, out_address := none,
    emp_id := empId, emp_code := none, employee_name := none,
    designation_name := none, ward_id := some e.ward_id, ward_name := none }

/-- The returned object of the create branch of
`getOrCreateAttendanceRecord` after `Object.assign` with the
best-effort employee-details query (names stay null when a join
partner of that query is missing). -/
def createdView (db : DB) (empId : Nat) (date : String) (e : Employee) :
    AttendanceView :=
  match lookupDesignation db e.designation_id, lookupWard db e.ward_id with
  | some d, some w =>
    { createdBaseView db empId date e with
        emp_code := some e.emp_code, employee_name := some e.name,
        designation_name := some d.designation_name,
        ward_name := some w.ward_name }
  | _, _ => createdBaseView db empId date e

/-- `getOrCreateAttendanceRecord(emp_id, date)`: returns the joined
row for (employee, date) when present, otherwise inserts a fresh row
seeded with the employee's current ward and returns the assembled
object.  Modelled from the spec: the relational schema itself is not
under src/, and per spec section 4.1 the insert fails with `NotFound`
when the employee identity does not exist (the attendance table keeps
a foreign key on `emp_id`); the source surfaces this as the insert
raising, with no row created. -/
def getOrCreateAttendanceRecord (db : DB) (empId : Nat) (date : String) :
    DB × Except StoreErr AttendanceView :=
  if empId == 0 then (db, .error .empIdRequired)
  else
    match readAttendance db empId date with
    | some v => (db, .ok v)
    | none =>
      match lookupEmployee db empId with
      | none => (db, .error .employeeNotFound)
      | some e =>
        let row := freshAttendanceRow db empId date e
        let db' := { db with attendance := db.attendance ++ [row],
                             nextAttendanceId := db.nextAttendanceId + 1 }
        (db', .ok (createdView db empId date e))

/-- The outcome of `uploadAttendanceImage`.  Modelled from the spec:
the object-store helper lives in `utils/s3Storage`, which is not under
src/; per spec section 6 a put returns a `url` and a `key`, and the
processor reads both defensively. -/
structure UploadResult where
  url : Option String
  key : Option String
deriving DecidableEq, Repr

/-- One element of a Rekognition `CompareFaces` response's
`FaceMatches` array (only the similarity is read). -/
structure FaceMatchEntry where
  Similarity : Option Rat
deriving DecidableEq, Repr

/-- A Rekognition `CompareFaces` response as read by the source
(`compareResponse?.FaceMatches?.[0]`). -/
structure CompareResponse where
  FaceMatches : Option (List FaceMatchEntry)
deriving DecidableEq, Repr

/-- A thrown recognition-service error: upstream HTTP status and
message. -/
structure RecogErr where
  statusCode : Nat
  message : String
deriving DecidableEq, Repr

/-- The external inputs one `processPunch` call can consume: the
configured S3 bucket, the object-store upload outcome for this call,
the platform URL parser (path extraction of `new URL`), the
`CompareFaces` outcome for this call, and the database server's
`NOW()`. -/
structure PunchEnv where
  awsBucket : Option String
  upload : Option UploadResult
  parseUrlPath : String → Option String
  compare : Except RecogErr CompareResponse
  now : Timestamp

/-- Errors thrown out of `processPunch` / `ensureFaceMatch`, each
matching one `throw` site of the source. -/
inductive PunchErr where
  | evidenceUploadFailed
  | employeeUndetermined
  | employeeNotFoundForFace
  | enrollmentMissing
  | enrollmentUnresolvable
  | recognitionService (e : RecogErr)
  | faceMismatch (similarity : Rat) (threshold : Rat)
  | updateFailed
deriving DecidableEq, Repr

/-- `reference.replace(/^\/+/u, "")`. -/
def stripLeadingSlashes (s : String) : String :=
  String.mk (s.toList.dropWhile (fun c => c == '/'))

/-- Scan for the character sequence of a URL scheme separator. -/
def hasUrlSchemeAux : List Char → Bool
  | ':' :: '/' :: '/' :: _ => true
  | _ :: rest => hasUrlSchemeAux rest
  | [] => false

/-- `reference.includes("://")`. -/
def hasUrlScheme (s : String) : Bool :=
  hasUrlSchemeAux s.toList

/-- `resolveS3ObjectKey(reference)`: null for an absent/empty
reference; URL references go through the platform URL parser; plain
references are stripped of leading slashes. -/
def resolveS3ObjectKey (env : PunchEnv) (reference : Option String) : Option String :=
  match reference with
  | none => none
  | some r =>
    if r == "" then none
    else if hasUrlScheme r then env.parseUrlPath r
    else some (stripLeadingSlashes r)

/-- `compareResponse?.FaceMatches?.[0]`. -/
def bestFaceMatch (resp : CompareResponse) : Option FaceMatchEntry :=
  (resp.FaceMatches.getD []).head?

/-- `bestMatch?.Similarity ?? 0`. -/
def bestSimilarity (resp : CompareResponse) : Rat :=
  ((bestFaceMatch resp).bind (fun m => m.Similarity)).getD 0

/-- The `{similarity, threshold}` audit payload returned by a
successful `ensureFaceMatch`. -/
structure FaceMeta where
  similarity : Rat
  threshold : Rat
deriving DecidableEq, Repr

/-- `ensureFaceMatch(employeeId, attendanceKey, threshold)`: skips
silently (returns null) when no S3 bucket is configured; otherwise
resolves the employee's enrolled face reference and compares it with
the captured evidence, failing when the best similarity is below the
threshold or no match is returned. -/
def ensureFaceMatch (env : PunchEnv) (db : DB) (employeeId : Option Nat)
    (attendanceKey : String) (threshold : Rat) : Except PunchErr (Option FaceMeta) :=
  match env.awsBucket with
  | none => .ok none
  | some _ =>
    match employeeId with
    | none => .error .employeeUndetermined
    | some eid =>
      match lookupEmployee db eid with
      | none => .error .employeeNotFoundForFace
      | some e =>
        match e.face_embedding with
        | none => .error .enrollmentMissing
        | some emb =>
          if emb == "" then .error .enrollmentMissing
          else
            match resolveS3ObjectKey env (some emb) with
            | none => .error .enrollmentUnresolvable
            | some _faceKey =>
              match env.compare with
              | .error err => .error (.recognitionService err)
              | .ok resp =>
                let similarity := bestSimilarity resp
                if (bestFaceMatch resp).isNone = true ∨ similarity < threshold then
                  .error (.faceMismatch similarity threshold)
                else
                  .ok (some { similarity := similarity, threshold := threshold })

/-- `resolvePunchActor(rawUserId)`: a punch actor is recorded only
when the normalized user id exists in the `users` table; anything else
degrades to no actor. -/
def resolvePunchActor (db : DB) (userId : Option Nat) : Option Nat :=
  match userId with
  | none => none
  | some u => if db.users.contains u then some u else none

/-- `resolveAttendanceEmployeeId(attendanceId)`: the employee of an
attendance row, or null when the id is falsy or the row is absent. -/
def resolveAttendanceEmployeeId (db : DB) (attendanceId : Nat) : Option Nat :=
  if attendanceId == 0 then none
  else (findAttendanceRow db attendanceId).map (fun a => a.emp_id)

/-- `explicitEmployeeId ?? await resolveAttendanceEmployeeId(...)`. -/
def resolvedEmployee (db : DB) (attendanceId : Nat) (explicitEmployeeId : Option Nat) :
    Option Nat :=
  match explicitEmployeeId with
  | some eid => some eid
  | none => resolveAttendanceEmployeeId db attendanceId

/-- The location payload of a punch request. -/
structure Location where
  latitude : String
  longitude : String
  address : String
deriving DecidableEq, Repr

/-- The `options` argument of `processPunch`. -/
structure PunchOptions where
  employeeId : Option Nat
  requireFaceMatch : Bool
  faceMatchThreshold : Rat
deriving DecidableEq, Repr

/-- `Number(process.env.FACE_MATCH_THRESHOLD ?? "90")` with the
documented default of 90. -/
def DEFAULT_FACE_MATCH_THRESHOLD : Rat := 90

/-- The direction-specific `UPDATE attendance SET ... = NOW(), ...`
performed by `processPunch`: punch timestamp, location, evidence
reference and actor of the requested direction are all overwritten. -/
def applyPunchUpdate (a : Attendance) (isPunchIn : Bool) (loc : Location)
    (imageUrl : Option String) (actor : Option Nat) (now : Timestamp) : Attendance :=
  if isPunchIn then
    { a with punch_in_time := some now, latitude_in := some loc.latitude,
             longitude_in := some loc.longitude, in_address := some loc.address,
             punch_in_image := imageUrl, punched_in_by := actor }
  else
    { a with punch_out_time := some now, latitude_out := some loc.latitude,
             longitude_out := some loc.longitude, out_address := some loc.address,
             punch_out_image := imageUrl, punched_out_by := actor }

/-- `processPunch(attendanceId, punchType, imageFile, userId,
locationData, options)`: uploads evidence when an image is present,
runs face verification only when required and the bucket, the uploaded
key and a resolved employee are all available, then performs the
conditional update.  The returned database is the post-state; every
error path leaves it as it stood. -/
def processPunch (db : DB) (env : PunchEnv) (attendanceId : Nat) (punchType : String)
    (imageFile : Bool) (userId : Option Nat) (locationData : Location)
    (options : PunchOptions) : DB × Except PunchErr (Attendance × Option FaceMeta) :=
  let uploadResult := if imageFile then env.upload else none
  let imageUrl := uploadResult.bind (fun u => u.url)
  let attendanceImageKey := uploadResult.bind (fun u => u.key)
  let resolvedEmployeeId := resolvedEmployee db attendanceId options.employeeId
  let gate : Except PunchErr (Option FaceMeta) :=
    if options.requireFaceMatch && env.awsBucket.isSome
        && attendanceImageKey.isSome && resolvedEmployeeId.isSome then
      ensureFaceMatch env db resolvedEmployeeId (attendanceImageKey.getD "")
        options.faceMatchThreshold
    else if options.requireFaceMatch && !attendanceImageKey.isSome then
      .error .evidenceUploadFailed
    else
      .ok none
  match gate with
  | .error e => (db, .error e)
  | .ok faceMatchMeta =>
    match findAttendanceRow db attendanceId with
    | none => (db, .error .updateFailed)
    | some a =>
      let a' := applyPunchUpdate a (punchType == PUNCH_IN) locationData imageUrl
        (resolvePunchActor db userId) env.now
      let rows := db.attendance.map
        (fun r => if r.attendance_id == attendanceId then a' else r)
      ({ db with attendance := rows }, .ok (a', faceMatchMeta))

/-- Whether the best-effort `UPDATE employee SET face_id = ...` cache
write raises (the source catches and logs such a failure). -/
structure CacheEnv where
  cacheWriteFails : Bool
deriving DecidableEq, Repr

/-- JavaScript truthiness of a nullable string. -/
def strTruthy (s : Option String) : Bool :=
  match s with
  | none => false
  | some v => !(v == "")

/-- `SELECT emp_id, name FROM employee WHERE face_id = $1` (first
row). -/
def lookupByFaceId (db : DB) (faceId : String) : Option Employee :=
  db.employees.find? (fun e => e.face_id == some faceId)

/-- `tryResolveByEmpId(empId)`: null short-circuits, otherwise a
primary-key lookup. -/
def tryResolveByEmpId (db : DB) (empId : Option Nat) : Option Employee :=
  match empId with
  | none => none
  | some id => db.employees.find? (fun e => e.emp_id == id)

/-- `UPDATE employee SET face_id = $1 WHERE emp_id = $2 AND (face_id
IS NULL OR face_id <> $1)`: the cached biometric identifier is written
only where it is currently null or different. -/
def updateFaceIdCache (db : DB) (empId : Nat) (faceId : String) : DB :=
  let rows := db.employees.map (fun e =>
    if e.emp_id == empId && !(e.face_id == some faceId) then
      { e with face_id := some faceId }
    else e)
  { db with employees := rows }

/-- `resolveEmployeeFromFaceIdentifiers({faceId, matchedExternalId,
requestedEmpId})`: lookup by cached face identifier first (early
return), then by the recognition service's external tag, then by the
caller-requested employee id; on success with a face identifier
supplied, a best-effort conditional cache write follows, whose failure
is swallowed. -/
def resolveEmployeeFromFaceIdentifiers (db : DB) (cenv : CacheEnv)
    (faceId : Option String) (matchedExternalId : Option Nat)
    (requestedEmpId : Option Nat) : DB × Option Employee :=
  let byFace := if strTruthy faceId then lookupByFaceId db (faceId.getD "") else none
  match byFace with
  | some e => (db, some e)
  | none =>
    let employeeRecord :=
      match tryResolveByEmpId db matchedExternalId with
      | some e => some e
      | none => tryResolveByEmpId db requestedEmpId
    match employeeRecord with
    | none => (db, none)
    | some e =>
      if strTruthy faceId then
        if cenv.cacheWriteFails then (db, some e)
        else (updateFaceIdCache db e.emp_id (faceId.getD ""), some e)
      else (db, some e)

/-- A Rekognition face bounding box (fractions of the image size). -/
structure BoundingBox where
  Width : Rat
  Height : Rat
  Left : Rat
  Top : Rat
deriving DecidableEq, Repr

/-- The pixel crop window handed to the image transform. -/
structure CropRegion where
  left : Int
  top : Int
  width : Int
  height : Int
deriving DecidableEq, Repr

/-- `computeCropRegion(boundingBox, imageWidth, imageHeight,
paddingFraction)`: scales the bounding box to pixels, pads each side,
clamps to the image bounds and rejects degenerate windows. -/
def computeCropRegion (boundingBox : Option BoundingBox)
    (imageWidth imageHeight : Int) (padFrac : Rat) : Option CropRegion :=
  match boundingBox with
  | none => none
  | some bb =>
    if imageWidth ≤ 0 ∨ imageHeight ≤ 0 then none
    else
      let baseWidth : Int := max (round (bb.Width * (imageWidth : Rat))) 1
      let baseHeight : Int := max (round (bb.Height * (imageHeight : Rat))) 1
      let padX : Int := round ((baseWidth : Rat) * padFrac)
      let padY : Int := round ((baseHeight : Rat) * padFrac)
      let left : Int := max (round (bb.Left * (imageWidth : Rat)) - padX) 0
      let top : Int := max (round (bb.Top * (imageHeight : Rat)) - padY) 0
      let width : Int := min (imageWidth - left) (baseWidth + padX * 2)
      let height : Int := min (imageHeight - top) (baseHeight + padY * 2)
      if width ≤ 0 ∨ height ≤ 0 then none
      else some { left := left, top := top, width := width, height := height }

/-- The `Face` object of a `SearchFacesByImage` match: the collection
face identifier and the (already normalized) external image tag. -/
structure SearchFace where
  FaceId : Option String
  ExternalImageId : Option Nat
deriving DecidableEq, Repr

/-- One `SearchFacesByImage` match. -/
structure SearchMatch where
  Similarity : Option Rat
  Face : Option SearchFace
deriving DecidableEq, Repr

/-- The per-face slice of the group-capture request's environment:
the detected bounding box, whether the crop/resize image transform
succeeds, the face-search outcome for the cropped sub-image (an error
carries the classified message), and the oracles consumed by the
nested `processPunch` and cache write. -/
structure FaceStep where
  boundingBox : Option BoundingBox
  cropOk : Bool
  search : Except String (List SearchMatch)
  punchEnv : PunchEnv
  cacheEnv : CacheEnv

/-- One entry of the group-capture per-face outcome list. -/
structure FaceResult where
  faceIndex : Nat
  status : String
  similarity : Option Rat
  employeeId : Option Nat
  employeeName : Option String
  attendanceId : Option Nat
  punchedAt : Option Timestamp
  message : Option String
deriving DecidableEq, Repr

/-- An outcome entry carrying only a status and a message. -/
def FaceResult.basic (i : Nat) (status : String) (msg : String) : FaceResult :=
  { faceIndex := i, status := status, similarity := none, employeeId := none,
    employeeName := none, attendanceId := none, punchedAt := none,
    message := some msg }

/-- The `duplicate` outcome entry pushed for a face whose employee was
already processed in this capture. -/
def dupResult (i : Nat) (similarity : Option Rat) (emp : Employee) : FaceResult :=
  { faceIndex := i, status := "duplicate", similarity := similarity,
    employeeId := some emp.emp_id, employeeName := some emp.name,
    attendanceId := none, punchedAt := none,
    message := some "Employee already processed in this capture." }

/-- The request-scoped constants of one group-capture run. -/
structure GroupCtx where
  punchType : String
  matchThreshold : Rat
  loc : Location
  userId : Option Nat
  today : String
  imageWidth : Int
  imageHeight : Int

/-- The loop state of the group-capture run: the database, the
processed-employees deduplication set, and the outcome list. -/
structure GroupState where
  db : DB
  processed : List Nat
  results : List FaceResult
deriving DecidableEq, Repr

/-- Messages of store errors as surfaced by the group catch block. -/
def storeErrMessage : StoreErr → String
  | .empIdRequired => "Employee ID is required"
  | .employeeNotFound => "Employee does not exist"

/-- Messages of punch errors as surfaced by the group catch block
(`payload?.details || payload?.error`, which resolves to the thrown
message). -/
def punchErrMessage : PunchErr → String
  | .evidenceUploadFailed => "Attendance image could not be uploaded; face verification failed"
  | .employeeUndetermined => "Unable to determine employee for attendance record"
  | .employeeNotFoundForFace => "Employee not found for face verification"
  | .enrollmentMissing => "Employee face enrollment is missing"
  | .enrollmentUnresolvable => "Unable to resolve stored face image"
  | .recognitionService e => e.message
  | .faceMismatch _ _ => "Captured face does not match enrolled face"
  | .updateFailed => "Attendance update failed"

/-- The body of the group-capture `for` loop for one detected face:
crop-window computation, crop, face search, identity resolution,
batch deduplication, get-or-create, legality check, and the punch
itself, every failure degrading to one pushed outcome entry. -/
def groupStep (ctx : GroupCtx) (f : FaceStep) (faceIndex : Nat) (s : GroupState) :
    GroupState :=
  match computeCropRegion f.boundingBox ctx.imageWidth ctx.imageHeight (1/4) with
  | none =>
    { s with results := s.results ++
        [FaceResult.basic faceIndex "skipped" "Unable to crop the detected face region."] }
  | some _ =>
    if !f.cropOk then
      { s with results := s.results ++
          [FaceResult.basic faceIndex "error" "Unable to process the detected face region."] }
    else
      match f.search with
      | .error msg =>
        { s with results := s.results ++ [FaceResult.basic faceIndex "error" msg] }
      | .ok ms =>
        match (ms.head?).bind (fun m => m.Face) with
        | none =>
          { s with results := s.results ++
              [{ faceIndex := faceIndex, status := "unmatched", similarity := none,
                 employeeId := none, employeeName := none, attendanceId := none,
                 punchedAt := none, message := some "No matching employee found." }] }
        | some face =>
          let similarity := (ms.head?).bind (fun m => m.Similarity)
          match resolveEmployeeFromFaceIdentifiers s.db f.cacheEnv
              face.FaceId face.ExternalImageId none with
          | (db1, none) =>
            { db := db1, processed := s.processed, results := s.results ++
                [{ faceIndex := faceIndex, status := "unmatched",
                   similarity := similarity, employeeId := none,
                   employeeName := none, attendanceId := none, punchedAt := none,
                   message := some "Matched face is not linked to any employee record." }] }
          | (db1, some emp) =>
            if s.processed.contains emp.emp_id then
              { db := db1, processed := s.processed,
                results := s.results ++ [dupResult faceIndex similarity emp] }
            else
              match getOrCreateAttendanceRecord db1 emp.emp_id ctx.today with
              | (db2, .error serr) =>
                { db := db2, processed := s.processed, results := s.results ++
                    [FaceResult.basic faceIndex "error" (storeErrMessage serr)] }
              | (db2, .ok attendance) =>
                match validatePunchAttempt (some attendance) ctx.punchType with
                | some verr =>
                  { db := db2, processed := s.processed ++ [emp.emp_id],
                    results := s.results ++
                      [{ faceIndex := faceIndex, status := "skipped",
                         similarity := similarity, employeeId := some emp.emp_id,
                         employeeName := some emp.name, attendanceId := none,
                         punchedAt := none, message := some verr.error }] }
                | none =>
                  match processPunch db2 f.punchEnv attendance.attendance_id
                      ctx.punchType true ctx.userId ctx.loc
                      { employeeId := some emp.emp_id, requireFaceMatch := true,
                        faceMatchThreshold := ctx.matchThreshold } with
                  | (db3, .error perr) =>
                    { db := db3, processed := s.processed, results := s.results ++
                        [FaceResult.basic faceIndex "error" (punchErrMessage perr)] }
                  | (db3, .ok (updated, _meta)) =>
                    { db := db3, processed := s.processed ++ [emp.emp_id],
                      results := s.results ++
                        [{ faceIndex := faceIndex, status := "punched",
                           similarity := similarity, employeeId := some emp.emp_id,
                           employeeName := some emp.name,
                           attendanceId := some attendance.attendance_id,
                           punchedAt := if ctx.punchType == PUNCH_IN
                             then updated.punch_in_time else updated.punch_out_time,
                           message := none }] }

/-- The group-capture `for` loop over the detected faces, in detection
order, with `faceIndex = index + 1`. -/
def groupLoop (ctx : GroupCtx) (faces : List FaceStep) (faceIndex : Nat)
    (s : GroupState) : GroupState :=
  match faces with
  | [] => s
  | f :: rest => groupLoop ctx rest (faceIndex + 1) (groupStep ctx f faceIndex s)

/-- The HTTP-level outcome of the group branch of the face-attendance
route. -/
inductive GroupResult where
  | httpError (status : Nat) (error : String)
  | summary (success : Bool) (punchType : String) (totalFaces : Nat)
      (punchedCount : Nat) (results : List FaceResult)
deriving DecidableEq, Repr

/-- The request-scoped external inputs of a group-capture request:
the face-detection outcome and the image metadata. -/
structure GroupEnv where
  faceDetails : List FaceStep
  imageWidth : Option Int
  imageHeight : Option Int

/-- `results.filter(entry => entry.status === "punched").length`. -/
def countPunched (results : List FaceResult) : Nat :=
  results.countP (fun r => r.status == "punched")

/-- The group branch of `POST /face-attendance`: fails when no face is
detected or the image metadata is unreadable, otherwise runs the
per-face loop from an empty deduplication set and aggregates the
outcome list. -/
def groupBranch (db : DB) (genv : GroupEnv) (punchType : String) (threshold : Rat)
    (loc : Location) (userId : Option Nat) (today : String) : DB × GroupResult :=
  if genv.faceDetails.isEmpty then
    (db, .httpError 422 "No faces detected in the image")
  else
    match genv.imageWidth, genv.imageHeight with
    | some w, some h =>
      if w == 0 || h == 0 then
        (db, .httpError 400 "Unable to read image dimensions for face processing")
      else
        let ctx : GroupCtx :=
          { punchType := punchType, matchThreshold := threshold,
            loc := loc, userId := userId, today := today,
            imageWidth := w, imageHeight := h }
        let final := groupLoop ctx genv.faceDetails 1
          { db := db, processed := [], results := [] }
        let punchedCount := countPunched final.results
        (final.db, .summary (decide (0 < punchedCount)) punchType
          genv.faceDetails.length punchedCount final.results)
    | _, _ => (db, .httpError 400 "Unable to read image dimensions for face processing")

/-- The HTTP-level outcome of the manual punch route `PUT /`. -/
inductive PutResult where
  | badRequest (error : String)
  | notFound (error : String)
  | conflict (error : String)
  | updated (message : String) (attendance : Attendance)
  | serverError (error : String)
deriving DecidableEq, Repr

/-- The manual punch route `PUT /`: required-field check, inline punch
legality checks on the raw row, then `processPunch` with face
verification off. -/
def putPunchRoute (db : DB) (env : PunchEnv) (attendanceId : Option Nat)
    (punchType : String) (latitude longitude address : String)
    (userId : Option Nat) (imageFile : Bool) : DB × PutResult :=
  match attendanceId with
  | none => (db, .badRequest "Missing required fields")
  | some aid =>
    if punchType == "" || latitude == "" || longitude == "" || address == "" then
      (db, .badRequest "Missing required fields")
    else
      match findAttendanceRow db aid with
      | none => (db, .notFound "Attendance record not found")
      | some row =>
        if punchType == PUNCH_IN && row.punch_in_time.isSome then
          (db, .conflict "Already punched in today")
        else if punchType == PUNCH_OUT && row.punch_out_time.isSome then
          (db, .conflict "Already punched out today")
        else if punchType == PUNCH_OUT && row.punch_in_time.isNone then
          (db, .conflict "Must punch in first")
        else
          match processPunch db env aid punchType imageFile userId
              { latitude := latitude, longitude := longitude, address := address }
              { employeeId := some row.emp_id, requireFaceMatch := false,
                faceMatchThreshold := DEFAULT_FACE_MATCH_THRESHOLD } with
          | (db1, .error perr) => (db1, .serverError (punchErrMessage perr))
          | (db1, .ok (updatedRow, _)) =>
            (db1, .updated ("Punch " ++ punchType ++ " updated successfully") updatedRow)

/-- A blank attendance view with neither punch set. -/
def viewBlank : AttendanceView :=
  { attendance_id := 1, date := "2024-01-01",
    punch_in_time := none, punch_out_time := none, duration := none,
    punch_in_image := none, punch_out_image := none,
    latitude_in := none, longitude_in := none, in_address := none,
    latitude_out := none, longitude_out := none, out_address := none,
    emp_id := 1, emp_code := none, employee_name := none,
    designation_name := none, ward_id := none, ward_name := none }

/-- The blank view after a punch-in. -/
def viewPunchedIn : AttendanceView := { viewBlank with punch_in_time := some "09:15 AM" }

/-- A sample employee with an enrolled face and a cached face id. -/
def empSeven : Employee :=
  { emp_id := 7, name := "Asha", emp_code := "E007", designation_id := 1,
    ward_id := 1, face_id := some "face-7", face_embedding := some "faces/7.jpg" }

/-- A sample morning timestamp. -/
def tNine : Timestamp := { day := 0, hour := 9, minute := 15, second := 0 }

/-- A sample location payload. -/
def locSample : Location :=
  { latitude := "22.7", longitude := "75.8", address := "Indore" }

/-- A blank attendance row for employee 7. -/
def rowBlank : Attendance :=
  { attendance_id := 100, emp_id := 7, date := "2024-01-01",
    punch_in_time := none, punch_out_time := none, duration := none,
    punch_in_image := none, punch_out_image := none,
    latitude_in := none, longitude_in := none, in_address := none,
    latitude_out := none, longitude_out := none, out_address := none,
    punched_in_by := none, punched_out_by := none, ward_id := some 1 }

/-- A sample database: one enrolled employee, its designation and
ward, one blank attendance row, one known user. -/
def dbWithRow : DB :=
  { employees := [empSeven],
    designations := [{ designation_id := 1, designation_name := "Cleaner" }],
    wards := [{ ward_id := 1, ward_name := "Ward 1" }],
    attendance := [rowBlank], users := [4], nextAttendanceId := 101 }

/-- An environment with no S3 bucket configured but a successful
evidence upload. -/
def envNoBucket : PunchEnv :=
  { awsBucket := none,
    upload := some { url := some "img-url", key := some "img-key" },
    parseUrlPath := fun _ => none,
    compare := .ok { FaceMatches := none }, now := tNine }

/-- An environment in which the comparison returns best similarity 50
against a threshold of 90. -/
def envMismatch : PunchEnv :=
  { awsBucket := some "bucket",
    upload := some { url := some "img-url", key := some "img-key" },
    parseUrlPath := fun _ => none,
    compare := .ok { FaceMatches := some [{ Similarity := some 50 }] },
    now := tNine }

/-- The database after the ward-snapshot insert of
`getOrCreateAttendanceRecord`. -/
def insertedDB (db : DB) (empId : Nat) (date : String) (e : Employee) : DB :=
  { db with attendance := db.attendance ++ [freshAttendanceRow db empId date e],
            nextAttendanceId := db.nextAttendanceId + 1 }

/-- The sample database with no attendance rows yet. -/
def dbNoRow : DB := { dbWithRow with attendance := [] }

/-- An environment for a plain (non-biometric) punch recorded at time
`t`. -/
def envAt (t : Timestamp) : PunchEnv :=
  { awsBucket := none,
    upload := some { url := some "img-url", key := some "img-key" },
    parseUrlPath := fun _ => none,
    compare := .ok { FaceMatches := none }, now := t }

/-- A punch-in on the sample record at 09:15:00. -/
def runSec0 : DB × Except PunchErr (Attendance × Option FaceMeta) :=
  processPunch dbWithRow (envAt { day := 0, hour := 9, minute := 15, second := 0 })
    100 "IN" true none locSample
    { employeeId := some 7, requireFaceMatch := false, faceMatchThreshold := 90 }

/-- The same punch-in recorded at 09:15:33. -/
def runSec33 : DB × Except PunchErr (Attendance × Option FaceMeta) :=
  processPunch dbWithRow (envAt { day := 0, hour := 9, minute := 15, second := 33 })
    100 "IN" true none locSample
    { employeeId := some 7, requireFaceMatch := false, faceMatchThreshold := 90 }

/-- The resolution order exactly as the claim states it: (a) lookup by
the cached biometric identifier when one is supplied, then (b) lookup
by the recognition service's candidate employee identity, then (c)
lookup by the caller-requested employee identity, the first success
short-circuiting the rest. -/
def claimedResolutionOrder (db : DB) (faceId : Option String)
    (matchedExternalId requestedEmpId : Option Nat) : Option Employee :=
  Option.orElse
    (Option.orElse
      (if strTruthy faceId then lookupByFaceId db (faceId.getD "") else none)
      (fun _ => tryResolveByEmpId db matchedExternalId))
    (fun _ => tryResolveByEmpId db requestedEmpId)

/-- A default employee used only as a `getD` fallback. -/
def emptyEmployee : Employee :=
  { emp_id := 0, name := "", emp_code := "", designation_id := 0, ward_id := 0,
    face_id := none, face_embedding := none }

/-- An employee whose face identifier is already cached. -/
def empFive : Employee :=
  { emp_id := 5, name := "Ravi", emp_code := "E005", designation_id := 1,
    ward_id := 1, face_id := some "f5", face_embedding := none }

/-- An employee with no cached face identifier. -/
def empNoCache : Employee :=
  { emp_id := 7, name := "Asha", emp_code := "E007", designation_id := 1,
    ward_id := 1, face_id := none, face_embedding := none }

/-- A two-employee directory for resolver runs. -/
def dbFaces : DB :=
  { employees := [empFive, empNoCache], designations := [], wards := [],
    attendance := [], users := [], nextAttendanceId := 1 }

/-- The database after `processPunch`'s conditional update replaced
row `aid` with the updated row. -/
def dbWithUpdatedRow (db : DB) (aid : Nat) (a' : Attendance) : DB :=
  let rows := db.attendance.map (fun r => if r.attendance_id == aid then a' else r)
  { db with attendance := rows }

/-- The punch-processor environment used inside the sample group run:
bucket configured, upload succeeding, comparison similarity 95. -/
def envGroup : PunchEnv :=
  { awsBucket := some "bucket", upload := some { url := some "u1", key := some "k1" },
    parseUrlPath := fun _ => none,
    compare := .ok { FaceMatches := some [{ Similarity := some 95 }] }, now := tNine }

/-- A face-search match resolving to the cached identifier of
employee 7 at similarity 97. -/
def matchSeven : SearchMatch :=
  { Similarity := some 97,
    Face := some { FaceId := some "face-7", ExternalImageId := none } }

/-- A detected face filling the frame that matches employee 7. -/
def faceStepSeven : FaceStep :=
  { boundingBox := some { Width := 1, Height := 1, Left := 0, Top := 0 },
    cropOk := true, search := .ok [matchSeven],
    punchEnv := envGroup, cacheEnv := { cacheWriteFails := false } }

/-- A group request whose two detected faces both resolve to
employee 7. -/
def genvTwoFaces : GroupEnv :=
  { faceDetails := [faceStepSeven, faceStepSeven],
    imageWidth := some 640, imageHeight := some 480 }

/-- Whether an outcome entry is a `punched` outcome for employee
`eid`. -/
def punchedFor (eid : Nat) (r : FaceResult) : Bool :=
  r.status == "punched" && r.employeeId == some eid

/-- The number of `punched` outcomes for employee `eid` in an outcome
list. -/
def countPunchedFor (rs : List FaceResult) (eid : Nat) : Nat :=
  rs.countP (punchedFor eid)

/-- The loop invariant of the group-capture run: an employee has at
most one `punched` outcome, and only if it is in the processed set. -/
def dedupInv (s : GroupState) : Prop :=
  ∀ eid : Nat,
    countPunchedFor s.results eid ≤ (if s.processed.contains eid then 1 else 0)

/-- The loop state after a face degrades to a `duplicate` outcome:
the resolver's database, the unchanged processed set, and the appended
duplicate entry. -/
def dupState (s : GroupState) (db1 : DB) (i : Nat) (sim : Option Rat)
    (emp : Employee) : GroupState :=
  { db := db1, processed := s.processed,
    results := s.results ++ [dupResult i sim emp] }

/-- The outcome list of a summary result (empty for error results). -/
def summaryResults : DB × GroupResult → List FaceResult
  | (_, .summary _ _ _ _ rs) => rs
  | _ => []

/-- The success flag of a summary result. -/
def summaryOk : DB × GroupResult → Bool
  | (_, .summary ok _ _ _ _) => ok
  | _ => false

/-- The punch type of a summary result. -/
def summaryPunchType : DB × GroupResult → String
  | (_, .summary _ pt _ _ _) => pt
  | _ => ""

/-- The total detected-face count of a summary result. -/
def summaryTotal : DB × GroupResult → Nat
  | (_, .summary _ _ t _ _) => t
  | _ => 0

/-- The punched count of a summary result. -/
def summaryCount : DB × GroupResult → Nat
  | (_, .summary _ _ _ c _) => c
  | _ => 0

/-- The sample group run: two faces, both resolving to employee 7. -/
def c3run : DB × GroupResult :=
  groupBranch dbNoRow genvTwoFaces "IN" 90 locSample none "2024-01-01"

/-- C1: the punch legality check is a pure function of the attendance
record and the requested direction.  Its clauses, read in the order the
claim lists them (and the source evaluates them): requesting IN with
the punch-in timestamp set fails `AlreadyPunchedIn` (400); requesting
OUT with the punch-out timestamp set fails `AlreadyPunchedOut` (400);
requesting OUT with the punch-in timestamp unset (and the earlier
clause not applying) fails `PunchInRequired` (400); an absent record
fails `RecordNotFound` (404); every other case succeeds with no side
effect (the check is pure and returns `none`). -/
theorem punch_legality_matches_claim (a : AttendanceView) (direction : String) :
    validatePunchAttempt none direction
      = some { status := 404, error := "Attendance record not found" }
    ∧ (a.punch_in_time.isSome = true →
        validatePunchAttempt (some a) PUNCH_IN
          = some { status := 400, error := "Already punched in today" })
    ∧ (a.punch_out_time.isSome = true →
        validatePunchAttempt (some a) PUNCH_OUT
          = some { status := 400, error := "Already punched out today" })
    ∧ (a.punch_in_time = none → a.punch_out_time = none →
        validatePunchAttempt (some a) PUNCH_OUT
          = some { status := 400, error := "Must punch in first" })
    ∧ (a.punch_in_time = none → validatePunchAttempt (some a) PUNCH_IN = none)
    ∧ (a.punch_in_time.isSome = true → a.punch_out_time = none →
        validatePunchAttempt (some a) PUNCH_OUT = none)
    ∧ (direction ≠ PUNCH_IN → direction ≠ PUNCH_OUT →
        validatePunchAttempt (some a) direction = none) := by
  refine ⟨rfl, ?_, ?_, ?_, ?_, ?_, ?_⟩ <;> intros <;>
    cases hin : a.punch_in_time <;> cases hout : a.punch_out_time <;>
    simp_all [validatePunchAttempt, PUNCH_IN, PUNCH_OUT]

/-- Witness for C1 at concrete records: a second punch-in on a
punched-in record is rejected, and a punch-out on a blank record is
rejected. -/
theorem punch_legality_matches_claim_witness :
    validatePunchAttempt (some viewPunchedIn) "IN"
      = some { status := 400, error := "Already punched in today" }
    ∧ validatePunchAttempt (some viewBlank) "OUT"
      = some { status := 400, error := "Must punch in first" } :=
  ⟨(punch_legality_matches_claim viewPunchedIn "IN").2.1 (by decide),
   (punch_legality_matches_claim viewBlank "OUT").2.2.2.1 (by decide) (by decide)⟩

/-- C8: a group-capture request whose image yields zero detected faces
fails with status 422 `NoFacesDetected`, and the attendance store is
untouched (the returned database is the input database). -/
theorem group_zero_faces_untouched (db : DB) (genv : GroupEnv) (punchType : String)
    (threshold : Rat) (loc : Location) (userId : Option Nat) (today : String)
    (h : genv.faceDetails = []) :
    groupBranch db genv punchType threshold loc userId today
      = (db, .httpError 422 "No faces detected in the image") := by
  simp [groupBranch, h]

/-- Witness for C8: a concrete group request with an empty detection
list is rejected with 422 and leaves the database unchanged. -/
theorem group_zero_faces_untouched_witness :
    groupBranch dbWithRow
      { faceDetails := [], imageWidth := some 640, imageHeight := some 480 }
      "IN" 90 locSample none "2024-01-01"
      = (dbWithRow, .httpError 422 "No faces detected in the image") :=
  group_zero_faces_untouched dbWithRow
    { faceDetails := [], imageWidth := some 640, imageHeight := some 480 }
    "IN" 90 locSample none "2024-01-01" rfl

/-- C4: when face verification is required and the evidence image
uploaded (a key is present), but either no S3 bucket is configured or
no employee identity can be resolved for the record, `processPunch`
performs no face verification at all (no face-match metadata is
produced) and still records the punch durably: the attempt succeeds
instead of failing. -/
theorem face_check_silently_skipped (db : DB) (env : PunchEnv) (attendanceId : Nat)
    (punchType : String) (userId : Option Nat) (loc : Location) (opts : PunchOptions)
    (u : UploadResult) (k : String) (a : Attendance)
    (hreq : opts.requireFaceMatch = true)
    (hupload : env.upload = some u)
    (hkey : u.key = some k)
    (hskip : env.awsBucket = none ∨ resolvedEmployee db attendanceId opts.employeeId = none)
    (hrow : findAttendanceRow db attendanceId = some a) :
    processPunch db env attendanceId punchType true userId loc opts
      = ({ db with attendance := db.attendance.map (fun r =>
             if r.attendance_id == attendanceId then
               applyPunchUpdate a (punchType == PUNCH_IN) loc u.url
                 (resolvePunchActor db userId) env.now
             else r) },
         .ok (applyPunchUpdate a (punchType == PUNCH_IN) loc u.url
           (resolvePunchActor db userId) env.now, none)) := by
  rcases hskip with hb | he
  · simp [processPunch, hupload, hkey, hrow, hb, hreq]
  · simp [processPunch, hupload, hkey, hrow, he, hreq]

/-- Witness for C4: with no bucket configured, a verification-required
punch-in on the sample record succeeds with no face metadata. -/
theorem face_check_silently_skipped_witness :
    (processPunch dbWithRow envNoBucket 100 "IN" true none locSample
        { employeeId := none, requireFaceMatch := true, faceMatchThreshold := 90 }).2
      = .ok (applyPunchUpdate rowBlank true locSample (some "img-url") none tNine, none) :=
  congrArg Prod.snd
    (face_check_silently_skipped dbWithRow envNoBucket 100 "IN" none locSample
      { employeeId := none, requireFaceMatch := true, faceMatchThreshold := 90 }
      { url := some "img-url", key := some "img-key" } "img-key" rowBlank
      rfl rfl rfl (Or.inl rfl) rfl)

/-- C2: when face verification is required and actually reached (the
bucket is configured, the evidence key uploaded, the employee resolved
and enrolled), a comparison whose best similarity is below the
threshold — or which returns no match at all — makes the punch attempt
fail with an error carrying the observed score and the threshold, and
no punch is durably recorded: the returned database is the input
database, so every field of every attendance record is unchanged. -/
theorem face_mismatch_rejects_punch (db : DB) (env : PunchEnv) (attendanceId : Nat)
    (punchType : String) (userId : Option Nat) (loc : Location) (opts : PunchOptions)
    (u : UploadResult) (k : String) (eid : Nat) (e : Employee) (emb : String)
    (fk : String) (resp : CompareResponse)
    (hreq : opts.requireFaceMatch = true)
    (hbucket : env.awsBucket.isSome = true)
    (hupload : env.upload = some u)
    (hkey : u.key = some k)
    (hres : resolvedEmployee db attendanceId opts.employeeId = some eid)
    (hemp : lookupEmployee db eid = some e)
    (hemb : e.face_embedding = some emb)
    (hembne : ¬ emb = "")
    (hkeyres : resolveS3ObjectKey env (some emb) = some fk)
    (hcmp : env.compare = .ok resp)
    (hmiss : (bestFaceMatch resp).isNone = true
      ∨ bestSimilarity resp < opts.faceMatchThreshold) :
    processPunch db env attendanceId punchType true userId loc opts
      = (db, .error (.faceMismatch (bestSimilarity resp) opts.faceMatchThreshold)) := by
  obtain ⟨b, hb⟩ := Option.isSome_iff_exists.mp hbucket
  have hgate : ensureFaceMatch env db (some eid) k opts.faceMatchThreshold
      = .error (.faceMismatch (bestSimilarity resp) opts.faceMatchThreshold) := by
    rcases hmiss with h | h
    · rw [Option.isNone_iff_eq_none] at h
      simp [ensureFaceMatch, hb, hemp, hemb, hembne, hkeyres, hcmp, h]
    · simp [ensureFaceMatch, hb, hemp, hemb, hembne, hkeyres, hcmp, h]
  simp [processPunch, hupload, hkey, hres, hreq, hb, hgate]

/-- Witness for C2: with observed similarity 50 and threshold 90, the
concrete punch attempt fails carrying both numbers and leaves the
database unchanged. -/
theorem face_mismatch_rejects_punch_witness :
    processPunch dbWithRow envMismatch 100 "IN" true none locSample
      { employeeId := some 7, requireFaceMatch := true, faceMatchThreshold := 90 }
      = (dbWithRow, .error (.faceMismatch 50 90)) :=
  face_mismatch_rejects_punch dbWithRow envMismatch 100 "IN" none locSample
    { employeeId := some 7, requireFaceMatch := true, faceMatchThreshold := 90 }
    { url := some "img-url", key := some "img-key" } "img-key" 7 empSeven
    "faces/7.jpg" "faces/7.jpg" { FaceMatches := some [{ Similarity := some 50 }] }
    rfl rfl rfl rfl rfl rfl rfl (by decide) rfl rfl (Or.inr (by decide))

/-- Helper: a row found by the (employee, date) read predicate has
exactly that employee and date. -/
theorem find_attendance_fields (db : DB) (empId : Nat) (date : String) (a : Attendance)
    (h : db.attendance.find? (fun r => r.emp_id == empId && r.date == date) = some a) :
    a.emp_id = empId ∧ a.date = date := by
  have hp := List.find?_some h
  simpa using hp

/-- Helper: when the employee does not exist, the joined read query
returns no row. -/
theorem readAttendance_none_of_no_employee (db : DB) (empId : Nat) (date : String)
    (hemp : lookupEmployee db empId = none) :
    readAttendance db empId date = none := by
  unfold readAttendance
  rcases hfind : db.attendance.find? (fun r => r.emp_id == empId && r.date == date)
      with _ | a
  · rw [hfind]
    rfl
  · obtain ⟨ha1, _⟩ := find_attendance_fields db empId date a hfind
    rw [hfind, Option.some_bind, ha1, hemp]
    rfl

/-- C5: `getOrCreate(employeeId, date)` returns the existing joined
record for that employee and date when one is present (database
untouched); otherwise it creates exactly one new row seeded with the
employee's current ward snapshot and returns a view of it; and it
fails with `NotFound` when the employee identity does not exist, with
no attendance record created (database untouched). -/
theorem getOrCreate_spec (db : DB) (empId : Nat) (date : String) (v : AttendanceView)
    (e : Employee) :
    (¬ empId = 0 → readAttendance db empId date = some v →
      getOrCreateAttendanceRecord db empId date = (db, .ok v))
    ∧ (¬ empId = 0 → readAttendance db empId date = none →
        lookupEmployee db empId = some e →
        getOrCreateAttendanceRecord db empId date
            = (insertedDB db empId date e, .ok (createdView db empId date e))
          ∧ (createdView db empId date e).ward_id = some e.ward_id
          ∧ (createdView db empId date e).emp_id = empId
          ∧ (createdView db empId date e).attendance_id = db.nextAttendanceId
          ∧ (createdView db empId date e).punch_in_time = none
          ∧ (createdView db empId date e).punch_out_time = none
          ∧ (freshAttendanceRow db empId date e).emp_id = empId
          ∧ (freshAttendanceRow db empId date e).date = date
          ∧ (freshAttendanceRow db empId date e).ward_id = some e.ward_id)
    ∧ (¬ empId = 0 → lookupEmployee db empId = none →
        getOrCreateAttendanceRecord db empId date = (db, .error .employeeNotFound)) := by
  refine ⟨?_, ?_, ?_⟩
  · intro h0 hread
    have hbe : (empId == 0) = false := by simpa using h0
    simp [getOrCreateAttendanceRecord, hbe, hread]
  · intro h0 hread hemp
    have hbe : (empId == 0) = false := by simpa using h0
    refine ⟨by simp [getOrCreateAttendanceRecord, insertedDB, hbe, hread, hemp],
      ?_, ?_, ?_, ?_, ?_, rfl, rfl, rfl⟩ <;>
      rcases hd : lookupDesignation db e.designation_id with _ | d <;>
      rcases hw : lookupWard db e.ward_id with _ | w <;>
      simp [createdView, createdBaseView, hd, hw]
  · intro h0 hemp
    have hbe : (empId == 0) = false := by simpa using h0
    have hread := readAttendance_none_of_no_employee db empId date hemp
    simp [getOrCreateAttendanceRecord, hbe, hread, hemp]

/-- Witness for C5 on the sample database: the existing row of
employee 7 is returned as-is, and a get-or-create for the absent
employee 9 fails with `NotFound` and leaves the database unchanged. -/
theorem getOrCreate_spec_witness :
    getOrCreateAttendanceRecord dbWithRow 7 "2024-01-01"
      = (dbWithRow, .ok (mkAttendanceView rowBlank empSeven
          { designation_id := 1, designation_name := "Cleaner" }
          { ward_id := 1, ward_name := "Ward 1" }))
    ∧ getOrCreateAttendanceRecord dbWithRow 9 "2024-01-01"
      = (dbWithRow, .error .employeeNotFound) :=
  ⟨(getOrCreate_spec dbWithRow 7 "2024-01-01"
      (mkAttendanceView rowBlank empSeven
        { designation_id := 1, designation_name := "Cleaner" }
        { ward_id := 1, ward_name := "Ward 1" }) empSeven).1
      (by decide) (by decide),
   (getOrCreate_spec dbWithRow 9 "2024-01-01" viewBlank empSeven).2.2
      (by decide) (by decide)⟩

/-- C6: `getOrCreate(E, D)` called twice in sequence (no interleaved
deletion) returns a record with the same record identity both times:
the second call finds what the first call found or created, succeeds
against the unchanged database of the first call's result, and creates
no new row. -/
theorem getOrCreate_idempotent (db : DB) (empId : Nat) (date : String)
    (e : Employee) (d : Designation) (w : Ward)
    (h0 : ¬ empId = 0)
    (he : lookupEmployee db empId = some e)
    (hd : lookupDesignation db e.designation_id = some d)
    (hw : lookupWard db e.ward_id = some w) :
    ∃ v1 v2,
      (getOrCreateAttendanceRecord db empId date).2 = .ok v1
      ∧ getOrCreateAttendanceRecord (getOrCreateAttendanceRecord db empId date).1
          empId date
          = ((getOrCreateAttendanceRecord db empId date).1, .ok v2)
      ∧ v1.attendance_id = v2.attendance_id := by
  have hbe : (empId == 0) = false := by simpa using h0
  rcases hread : readAttendance db empId date with _ | v
  · -- create path
    have heq1 : getOrCreateAttendanceRecord db empId date
        = (insertedDB db empId date e, .ok (createdView db empId date e)) := by
      simp [getOrCreateAttendanceRecord, insertedDB, hbe, hread, he]
    have hfind : db.attendance.find? (fun r => r.emp_id == empId && r.date == date)
        = none := by
      rcases hf : db.attendance.find? (fun r => r.emp_id == empId && r.date == date)
          with _ | a
      · exact hf
      · exfalso
        obtain ⟨ha1, ha2⟩ := find_attendance_fields db empId date a hf
        unfold readAttendance at hread
        rw [hf, Option.some_bind, ha1, he, Option.some_bind, hd, Option.some_bind,
          hw] at hread
        simp at hread
    have hEmpIns : lookupEmployee (insertedDB db empId date e) = lookupEmployee db := rfl
    have hDesIns : lookupDesignation (insertedDB db empId date e) = lookupDesignation db
      := rfl
    have hWardIns : lookupWard (insertedDB db empId date e) = lookupWard db := rfl
    have hread2 : readAttendance (insertedDB db empId date e) empId date
        = some (mkAttendanceView (freshAttendanceRow db empId date e) e d w) := by
      unfold readAttendance
      have hfind2 : (insertedDB db empId date e).attendance.find?
          (fun r => r.emp_id == empId && r.date == date)
          = some (freshAttendanceRow db empId date e) := by
        show (db.attendance ++ [freshAttendanceRow db empId date e]).find? _ = _
        rw [List.find?_append, hfind]
        simp [freshAttendanceRow]
      rw [hfind2, Option.some_bind, hEmpIns]
      have hfe : (freshAttendanceRow db empId date e).emp_id = empId := rfl
      rw [hfe, he, Option.some_bind, hDesIns, hd, Option.some_bind, hWardIns, hw]
      rfl
    have heq2 : getOrCreateAttendanceRecord (insertedDB db empId date e) empId date
        = (insertedDB db empId date e,
           .ok (mkAttendanceView (freshAttendanceRow db empId date e) e d w)) := by
      simp [getOrCreateAttendanceRecord, hbe, hread2]
    refine ⟨createdView db empId date e,
      mkAttendanceView (freshAttendanceRow db empId date e) e d w, ?_, ?_, ?_⟩
    · rw [heq1]
    · rw [heq1]
      exact heq2
    · simp [createdView, createdBaseView, mkAttendanceView, freshAttendanceRow, hd, hw]
  · -- found path
    have heq1 : getOrCreateAttendanceRecord db empId date = (db, .ok v) := by
      simp [getOrCreateAttendanceRecord, hbe, hread]
    refine ⟨v, v, ?_, ?_, rfl⟩
    · rw [heq1]
    · simp [heq1]

/-- Witness for C6: on the sample database with no row yet, two
get-or-create calls for employee 7 agree on the record identity and
the second call changes nothing. -/
theorem getOrCreate_idempotent_witness :
    ∃ v1 v2,
      (getOrCreateAttendanceRecord dbNoRow 7 "2024-01-01").2 = .ok v1
      ∧ getOrCreateAttendanceRecord (getOrCreateAttendanceRecord dbNoRow 7 "2024-01-01").1
          7 "2024-01-01"
          = ((getOrCreateAttendanceRecord dbNoRow 7 "2024-01-01").1, .ok v2)
      ∧ v1.attendance_id = v2.attendance_id :=
  getOrCreate_idempotent dbNoRow 7 "2024-01-01" empSeven
    { designation_id := 1, designation_name := "Cleaner" }
    { ward_id := 1, ward_name := "Ward 1" }
    (by decide) (by decide) (by decide) (by decide)

/-- Counterexample to C7: two punches written at distinct server
timestamps (09:15:00 and 09:15:33) leave distinct stored records, yet
the store's get-or-create read path returns identical views for both —
the stored timestamp comes back as the formatted string "09:15 AM",
with the date and seconds dropped.  The read path therefore applies a
lossy transform, so the re-read record is not identical to the written
one. -/
theorem punch_roundtrip_lossy_counterexample :
    runSec0.1 ≠ runSec33.1
    ∧ readAttendance runSec0.1 7 "2024-01-01" = readAttendance runSec33.1 7 "2024-01-01"
    ∧ (findAttendanceRow runSec0.1 100).map (fun r => r.punch_in_time)
        = some (some { day := 0, hour := 9, minute := 15, second := 0 })
    ∧ (findAttendanceRow runSec33.1 100).map (fun r => r.punch_in_time)
        = some (some { day := 0, hour := 9, minute := 15, second := 33 })
    ∧ (readAttendance runSec0.1 7 "2024-01-01").map (fun v => v.punch_in_time)
        = some (some "09:15 AM") := by
  refine ⟨by decide, by decide, by decide, by decide, by decide⟩

/-- C7 as amended: re-reading a record written by the Punch Processor
through the store's read path reproduces the location fields and the
evidence references identically, while each punch timestamp comes back
re-formatted through `TO_CHAR(..., 'HH12:MI AM')` (12-hour
hour-and-minute string; date and seconds dropped) rather than
verbatim. -/
theorem punch_roundtrip_modulo_time_format
    (db db' : DB) (env : PunchEnv) (attendanceId : Nat) (punchType : String)
    (imageFile : Bool) (userId : Option Nat) (loc : Location) (opts : PunchOptions)
    (a' : Attendance) (meta : Option FaceMeta) (e : Employee) (d : Designation)
    (w : Ward)
    (hrun : processPunch db env attendanceId punchType imageFile userId loc opts
      = (db', .ok (a', meta)))
    (hfind : db'.attendance.find? (fun r => r.emp_id == a'.emp_id && r.date == a'.date)
      = some a')
    (hemp : lookupEmployee db' a'.emp_id = some e)
    (hd : lookupDesignation db' e.designation_id = some d)
    (hw : lookupWard db' e.ward_id = some w) :
    ∃ v, readAttendance db' a'.emp_id a'.date = some v
      ∧ v.punch_in_time = a'.punch_in_time.map toChar12
      ∧ v.punch_out_time = a'.punch_out_time.map toChar12
      ∧ v.latitude_in = a'.latitude_in ∧ v.longitude_in = a'.longitude_in
      ∧ v.in_address = a'.in_address
      ∧ v.latitude_out = a'.latitude_out ∧ v.longitude_out = a'.longitude_out
      ∧ v.out_address = a'.out_address
      ∧ v.punch_in_image = a'.punch_in_image
      ∧ v.punch_out_image = a'.punch_out_image := by
  refine ⟨mkAttendanceView a' e d w, ?_, rfl, rfl, rfl, rfl, rfl, rfl, rfl, rfl,
    rfl, rfl⟩
  unfold readAttendance
  rw [hfind, Option.some_bind, hemp, Option.some_bind, hd, Option.some_bind, hw]
  rfl

/-- Witness for the amended C7: the 09:15:00 punch-in read back on the
sample database. -/
theorem punch_roundtrip_modulo_time_format_witness :
    ∃ v, readAttendance runSec0.1
        (applyPunchUpdate rowBlank true locSample (some "img-url") none
          { day := 0, hour := 9, minute := 15, second := 0 }).emp_id
        (applyPunchUpdate rowBlank true locSample (some "img-url") none
          { day := 0, hour := 9, minute := 15, second := 0 }).date
      = some v
      ∧ v.punch_in_time = (applyPunchUpdate rowBlank true locSample (some "img-url")
          none { day := 0, hour := 9, minute := 15, second := 0 }).punch_in_time.map
          toChar12
      ∧ v.punch_out_time = (applyPunchUpdate rowBlank true locSample (some "img-url")
          none { day := 0, hour := 9, minute := 15, second := 0 }).punch_out_time.map
          toChar12
      ∧ v.latitude_in = (applyPunchUpdate rowBlank true locSample (some "img-url")
          none { day := 0, hour := 9, minute := 15, second := 0 }).latitude_in
      ∧ v.longitude_in = (applyPunchUpdate rowBlank true locSample (some "img-url")
          none { day := 0, hour := 9, minute := 15, second := 0 }).longitude_in
      ∧ v.in_address = (applyPunchUpdate rowBlank true locSample (some "img-url")
          none { day := 0, hour := 9, minute := 15, second := 0 }).in_address
      ∧ v.latitude_out = (applyPunchUpdate rowBlank true locSample (some "img-url")
          none { day := 0, hour := 9, minute := 15, second := 0 }).latitude_out
      ∧ v.longitude_out = (applyPunchUpdate rowBlank true locSample (some "img-url")
          none { day := 0, hour := 9, minute := 15, second := 0 }).longitude_out
      ∧ v.out_address = (applyPunchUpdate rowBlank true locSample (some "img-url")
          none { day := 0, hour := 9, minute := 15, second := 0 }).out_address
      ∧ v.punch_in_image = (applyPunchUpdate rowBlank true locSample (some "img-url")
          none { day := 0, hour := 9, minute := 15, second := 0 }).punch_in_image
      ∧ v.punch_out_image = (applyPunchUpdate rowBlank true locSample (some "img-url")
          none { day := 0, hour := 9, minute := 15, second := 0 }).punch_out_image :=
  punch_roundtrip_modulo_time_format dbWithRow runSec0.1
    (envAt { day := 0, hour := 9, minute := 15, second := 0 }) 100 "IN" true none
    locSample { employeeId := some 7, requireFaceMatch := false, faceMatchThreshold := 90 }
    (applyPunchUpdate rowBlank true locSample (some "img-url") none
      { day := 0, hour := 9, minute := 15, second := 0 })
    none empSeven { designation_id := 1, designation_name := "Cleaner" }
    { ward_id := 1, ward_name := "Ward 1" }
    rfl (by decide) (by decide) (by decide) (by decide)

/-- Helper: `getD` through `List.map` on employee lists. -/
theorem getD_map_employee (f : Employee → Employee) (l : List Employee) (i : Nat)
    (h : i < l.length) :
    (l.map f).getD i emptyEmployee = f (l.getD i emptyEmployee) := by
  induction l generalizing i with
  | nil => simp at h
  | cons a t ih =>
    cases i with
    | zero => rfl
    | succ n =>
      have hn : n < t.length := by simpa using h
      simpa using ih n hn

/-- C9: the identity resolver tries its lookups in the fixed order
(a) cached biometric identifier, (b) candidate employee identity from
the recognition service's tagging, (c) caller-requested employee
identity, first success short-circuiting the rest; a failure of the
best-effort cache write never changes the resolution result; the
database is written only when resolution succeeded through (b) or (c)
with a biometric identifier supplied and the write did not fail, and
that write sets a row's cached identifier to the freshly observed
value exactly when the row is the resolved employee's and its cached
identifier is currently null or different, leaving every other row
unchanged. -/
theorem resolver_order_and_cache (db : DB) (cenv : CacheEnv) (faceId : Option String)
    (matchedExternalId requestedEmpId : Option Nat) :
    (resolveEmployeeFromFaceIdentifiers db cenv faceId matchedExternalId
        requestedEmpId).2
      = claimedResolutionOrder db faceId matchedExternalId requestedEmpId
    ∧ (resolveEmployeeFromFaceIdentifiers db { cacheWriteFails := true } faceId
        matchedExternalId requestedEmpId).2
      = (resolveEmployeeFromFaceIdentifiers db { cacheWriteFails := false } faceId
          matchedExternalId requestedEmpId).2
    ∧ (∀ e, strTruthy faceId = true → lookupByFaceId db (faceId.getD "") = some e →
        resolveEmployeeFromFaceIdentifiers db cenv faceId matchedExternalId
          requestedEmpId = (db, some e))
    ∧ (strTruthy faceId = false →
        (resolveEmployeeFromFaceIdentifiers db cenv faceId matchedExternalId
          requestedEmpId).1 = db)
    ∧ ((resolveEmployeeFromFaceIdentifiers db cenv faceId matchedExternalId
          requestedEmpId).2 = none →
        (resolveEmployeeFromFaceIdentifiers db cenv faceId matchedExternalId
          requestedEmpId).1 = db)
    ∧ (cenv.cacheWriteFails = true →
        (resolveEmployeeFromFaceIdentifiers db cenv faceId matchedExternalId
          requestedEmpId).1 = db)
    ∧ (∀ e, strTruthy faceId = true → lookupByFaceId db (faceId.getD "") = none →
        (resolveEmployeeFromFaceIdentifiers db cenv faceId matchedExternalId
          requestedEmpId).2 = some e →
        cenv.cacheWriteFails = false →
        (resolveEmployeeFromFaceIdentifiers db cenv faceId matchedExternalId
          requestedEmpId).1 = updateFaceIdCache db e.emp_id (faceId.getD ""))
    ∧ (∀ (dbz : DB) (eid : Nat) (fid : String) (i : Nat),
        i < dbz.employees.length →
        (updateFaceIdCache dbz eid fid).employees.getD i emptyEmployee
          = (if (dbz.employees.getD i emptyEmployee).emp_id = eid
                ∧ ¬ (dbz.employees.getD i emptyEmployee).face_id = some fid
             then { dbz.employees.getD i emptyEmployee with face_id := some fid }
             else dbz.employees.getD i emptyEmployee)) := by
  refine ⟨?_, ?_, ?_, ?_, ?_, ?_, ?_, ?_⟩
  · cases hb : strTruthy faceId <;>
      cases hbf : lookupByFaceId db (faceId.getD "") <;>
      cases hm : tryResolveByEmpId db matchedExternalId <;>
      cases hr : tryResolveByEmpId db requestedEmpId <;>
      cases hcw : cenv.cacheWriteFails <;>
      simp [resolveEmployeeFromFaceIdentifiers, claimedResolutionOrder, Option.orElse,
        hb, hbf, hm, hr, hcw]
  · cases hb : strTruthy faceId <;>
      cases hbf : lookupByFaceId db (faceId.getD "") <;>
      cases hm : tryResolveByEmpId db matchedExternalId <;>
      cases hr : tryResolveByEmpId db requestedEmpId <;>
      simp [resolveEmployeeFromFaceIdentifiers, hb, hbf, hm, hr]
  · intro e hb hbf
    simp [resolveEmployeeFromFaceIdentifiers, hb, hbf]
  · intro hb
    cases hm : tryResolveByEmpId db matchedExternalId <;>
      cases hr : tryResolveByEmpId db requestedEmpId <;>
      simp [resolveEmployeeFromFaceIdentifiers, hb, hm, hr]
  · intro hres
    cases hb : strTruthy faceId <;>
      cases hbf : lookupByFaceId db (faceId.getD "") <;>
      cases hm : tryResolveByEmpId db matchedExternalId <;>
      cases hr : tryResolveByEmpId db requestedEmpId <;>
      cases hcw : cenv.cacheWriteFails <;>
      simp_all [resolveEmployeeFromFaceIdentifiers, hb, hbf, hm, hr, hcw]
  · intro hcw
    cases hb : strTruthy faceId <;>
      cases hbf : lookupByFaceId db (faceId.getD "") <;>
      cases hm : tryResolveByEmpId db matchedExternalId <;>
      cases hr : tryResolveByEmpId db requestedEmpId <;>
      simp [resolveEmployeeFromFaceIdentifiers, hb, hbf, hm, hr, hcw]
  · intro e hb hbf hres hcw
    cases hm : tryResolveByEmpId db matchedExternalId <;>
      cases hr : tryResolveByEmpId db requestedEmpId <;>
      simp_all [resolveEmployeeFromFaceIdentifiers, hb, hbf, hm, hr, hcw]
  · intro dbz eid fid i hi
    rw [show (updateFaceIdCache dbz eid fid).employees
        = dbz.employees.map (fun e =>
            if e.emp_id == eid && !(e.face_id == some fid) then
              { e with face_id := some fid }
            else e) from rfl]
    rw [getD_map_employee _ _ _ hi]
    by_cases h1 : (dbz.employees.getD i emptyEmployee).emp_id = eid <;>
      by_cases h2 : (dbz.employees.getD i emptyEmployee).face_id = some fid <;>
      simp [h1, h2]

/-- Witness for C9: a cached identifier resolves through path (a) with
no write, and a fresh identifier resolving through path (b) triggers
the conditional cache write. -/
theorem resolver_order_and_cache_witness :
    resolveEmployeeFromFaceIdentifiers dbFaces { cacheWriteFails := false }
        (some "f5") (some 7) none = (dbFaces, some empFive)
    ∧ (resolveEmployeeFromFaceIdentifiers dbFaces { cacheWriteFails := false }
        (some "fNew") (some 7) none).1 = updateFaceIdCache dbFaces 7 "fNew" :=
  ⟨(resolver_order_and_cache dbFaces { cacheWriteFails := false }
      (some "f5") (some 7) none).2.2.1 empFive (by decide) (by decide),
   (resolver_order_and_cache dbFaces { cacheWriteFails := false }
      (some "fNew") (some 7) none).2.2.2.2.2.2.1 empNoCache
      (by decide) (by decide) (by decide) rfl⟩

/-- C10: for an existing record and any punch direction other than
exactly "IN" and exactly "OUT", the legality check returns no error
regardless of the record's punch state, and the manual punch route
then applies such a request as a punch-out update — punch-out
timestamp, location, evidence and actor fields are all set — even when
no punch-in is recorded. -/
theorem unknown_punch_type_acts_as_out
    (db : DB) (env : PunchEnv) (aid : Nat) (pt lat lng addr : String)
    (uid : Option Nat) (imageFile : Bool) (row : Attendance)
    (hin : pt ≠ PUNCH_IN) (hout : pt ≠ PUNCH_OUT) (hne : pt ≠ "")
    (hlat : lat ≠ "") (hlng : lng ≠ "") (haddr : addr ≠ "")
    (hrow : findAttendanceRow db aid = some row) :
    (∀ v : AttendanceView, validatePunchAttempt (some v) pt = none)
    ∧ (∃ a', putPunchRoute db env (some aid) pt lat lng addr uid imageFile
          = (dbWithUpdatedRow db aid a',
             .updated ("Punch " ++ pt ++ " updated successfully") a')
        ∧ a'.punch_out_time = some env.now
        ∧ a'.latitude_out = some lat
        ∧ a'.longitude_out = some lng
        ∧ a'.out_address = some addr
        ∧ a'.punch_out_image
            = (if imageFile then env.upload.bind (fun u => u.url) else none)
        ∧ a'.punched_out_by = resolvePunchActor db uid
        ∧ a'.punch_in_time = row.punch_in_time) := by
  have hin' : ¬ (pt = "IN") := by simpa [PUNCH_IN] using hin
  have hout' : ¬ (pt = "OUT") := by simpa [PUNCH_OUT] using hout
  constructor
  · intro v
    simp [validatePunchAttempt, hin', hout', PUNCH_IN, PUNCH_OUT]
  · refine ⟨applyPunchUpdate row (pt == PUNCH_IN) ⟨lat, lng, addr⟩
      ((if imageFile then env.upload else none).bind (fun u => u.url))
      (resolvePunchActor db uid) env.now, ?_, ?_, ?_, ?_, ?_, ?_, ?_, ?_⟩ <;>
      simp [putPunchRoute, processPunch, applyPunchUpdate, dbWithUpdatedRow, hin', hout',
        hne, hlat, hlng, haddr, hrow, PUNCH_IN, PUNCH_OUT, Option.bind] <;>
      cases imageFile <;> simp

/-- Witness for C10: the unrecognized direction "FOO" passes the
legality check on concrete records in either punch state, and the
manual route records it as a punch-out on the sample record that has
no punch-in. -/
theorem unknown_punch_type_acts_as_out_witness :
    validatePunchAttempt (some viewPunchedIn) "FOO" = none
    ∧ validatePunchAttempt (some viewBlank) "FOO" = none
    ∧ (∃ a', putPunchRoute dbWithRow (envAt tNine) (some 100) "FOO" "22.7" "75.8"
          "Indore" none true
          = (dbWithUpdatedRow dbWithRow 100 a',
             .updated ("Punch " ++ "FOO" ++ " updated successfully") a')
        ∧ a'.punch_out_time = some (envAt tNine).now
        ∧ a'.latitude_out = some "22.7"
        ∧ a'.longitude_out = some "75.8"
        ∧ a'.out_address = some "Indore"
        ∧ a'.punch_out_image
            = (if true then (envAt tNine).upload.bind (fun u => u.url) else none)
        ∧ a'.punched_out_by = resolvePunchActor dbWithRow none
        ∧ a'.punch_in_time = rowBlank.punch_in_time) :=
  ⟨(unknown_punch_type_acts_as_out dbWithRow (envAt tNine) 100 "FOO" "22.7" "75.8"
      "Indore" none true rowBlank (by decide) (by decide) (by decide) (by decide)
      (by decide) (by decide) (by decide)).1 viewPunchedIn,
   (unknown_punch_type_acts_as_out dbWithRow (envAt tNine) 100 "FOO" "22.7" "75.8"
      "Indore" none true rowBlank (by decide) (by decide) (by decide) (by decide)
      (by decide) (by decide) (by decide)).1 viewBlank,
   (unknown_punch_type_acts_as_out dbWithRow (envAt tNine) 100 "FOO" "22.7" "75.8"
      "Indore" none true rowBlank (by decide) (by decide) (by decide) (by decide)
      (by decide) (by decide) (by decide)).2⟩

/-- Helper: membership in the processed list survives appending. -/
theorem contains_mono_append (l : List Nat) (x e : Nat) (h : l.contains e = true) :
    (l ++ [x]).contains e = true := by
  rw [List.elem_iff] at h ⊢
  exact List.mem_append.mpr (Or.inl h)

/-- Helper: a freshly appended element is in the processed list. -/
theorem contains_append_self (l : List Nat) (x : Nat) :
    (l ++ [x]).contains x = true := by
  rw [List.elem_iff]
  exact List.mem_append.mpr (Or.inr (List.mem_singleton.mpr rfl))

/-- Structural behavior of one group-capture loop iteration: exactly
one outcome entry is appended, the processed set only grows, and a
`punched` entry names an employee that was not yet processed and is
processed afterwards. -/
theorem groupStep_shape (ctx : GroupCtx) (f : FaceStep) (i : Nat) (s : GroupState) :
    ∃ r : FaceResult,
      (groupStep ctx f i s).results = s.results ++ [r]
      ∧ (∀ x, s.processed.contains x = true →
          (groupStep ctx f i s).processed.contains x = true)
      ∧ (r.status = "punched" →
          ∃ emp : Nat, r.employeeId = some emp
            ∧ s.processed.contains emp = false
            ∧ (groupStep ctx f i s).processed.contains emp = true) := by
  unfold groupStep
  split
  · exact ⟨_, rfl, fun x hx => hx, by intro h; simp [FaceResult.basic, dupResult] at h⟩
  · split
    · exact ⟨_, rfl, fun x hx => hx, by intro h; simp [FaceResult.basic, dupResult] at h⟩
    · split
      · exact ⟨_, rfl, fun x hx => hx, by intro h; simp [FaceResult.basic, dupResult] at h⟩
      · split
        · exact ⟨_, rfl, fun x hx => hx, by intro h; simp [FaceResult.basic, dupResult] at h⟩
        · split
          · exact ⟨_, rfl, fun x hx => hx, by intro h; simp [FaceResult.basic, dupResult] at h⟩
          · rename_i db1 emp heq
            split
            · exact ⟨_, rfl, fun x hx => hx, by intro h; simp [FaceResult.basic, dupResult] at h⟩
            · rename_i hnotdup
              split
              · exact ⟨_, rfl, fun x hx => hx, by intro h; simp [FaceResult.basic, dupResult] at h⟩
              · split
                · exact ⟨_, rfl, fun x hx => contains_mono_append _ _ _ hx,
                    by intro h; simp [FaceResult.basic, dupResult] at h⟩
                · split
                  · exact ⟨_, rfl, fun x hx => hx,
                      by intro h; simp [FaceResult.basic, dupResult] at h⟩
                  · refine ⟨_, rfl, fun x hx => contains_mono_append _ _ _ hx, ?_⟩
                    intro _
                    refine ⟨emp.emp_id, rfl, ?_, contains_append_self _ _⟩
                    exact Bool.not_eq_true _ ▸ Bool.of_not_eq_true hnotdup

/-- One loop iteration preserves the deduplication invariant. -/
theorem groupStep_dedupInv (ctx : GroupCtx) (f : FaceStep) (i : Nat) (s : GroupState)
    (h : dedupInv s) : dedupInv (groupStep ctx f i s) := by
  obtain ⟨r, hres, hmono, hpunch⟩ := groupStep_shape ctx f i s
  intro eid
  have hbase := h eid
  unfold countPunchedFor at hbase ⊢
  rw [hres, List.countP_append]
  rcases hpr : punchedFor eid r with _ | _
  · have hone : List.countP (punchedFor eid) [r] = 0 := by
      simp [List.countP_cons, hpr]
    rw [hone]
    cases hc : s.processed.contains eid with
    | false =>
      rw [hc] at hbase
      have hb2 : List.countP (punchedFor eid) s.results ≤ 0 := by simpa using hbase
      have hz : List.countP (punchedFor eid) s.results = 0 := Nat.le_zero.mp hb2
      rw [hz]
      simp
    | true =>
      have hc' := hmono eid hc
      rw [hc] at hbase
      rw [hc', if_pos rfl]
      have hb1 : List.countP (punchedFor eid) s.results ≤ 1 := by
        refine le_trans hbase ?_
        simp
      omega
  · have hone : List.countP (punchedFor eid) [r] = 1 := by
      simp [List.countP_cons, hpr]
    rw [hone]
    have hst : r.status = "punched" ∧ r.employeeId = some eid := by
      have hp := hpr
      unfold punchedFor at hp
      simpa using hp
    obtain ⟨emp, hemp, hnf, hnt⟩ := hpunch hst.1
    have heid : emp = eid := by
      rw [hst.2] at hemp
      exact (Option.some_inj.mp hemp).symm
    subst heid
    rw [hnf] at hbase
    have hb2 : List.countP (punchedFor emp) s.results ≤ 0 := by simpa using hbase
    rw [hnt, if_pos rfl]
    omega

/-- The whole loop preserves the deduplication invariant. -/
theorem groupLoop_dedupInv (ctx : GroupCtx) (faces : List FaceStep) :
    ∀ (i : Nat) (s : GroupState), dedupInv s → dedupInv (groupLoop ctx faces i s) := by
  induction faces with
  | nil => intro i s h; exact h
  | cons f rest ih =>
    intro i s h
    exact ih (i + 1) (groupStep ctx f i s) (groupStep_dedupInv ctx f i s h)

/-- C3: within one group-capture request, the per-face outcome list of
a completed run contains at most one `punched` outcome per employee
identity, however many detected faces resolve to that employee; and a
face whose identity resolves to an employee already in the processed
set of the batch gets the `duplicate` outcome (employee, similarity
and dedup message attached) with no further processing for that
face. -/
theorem group_dedup_invariant
    (db : DB) (genv : GroupEnv) (punchType : String) (threshold : Rat)
    (loc : Location) (userId : Option Nat) (today : String)
    (db' : DB) (ok : Bool) (pt' : String) (total punched : Nat)
    (results : List FaceResult) (eid : Nat)
    (hrun : groupBranch db genv punchType threshold loc userId today
      = (db', .summary ok pt' total punched results)) :
    countPunchedFor results eid ≤ 1
    ∧ (∀ (ctx : GroupCtx) (f : FaceStep) (i : Nat) (s : GroupState) (db1 : DB)
        (emp : Employee) (ms : List SearchMatch) (face : SearchFace)
        (region : CropRegion),
        computeCropRegion f.boundingBox ctx.imageWidth ctx.imageHeight (1/4)
          = some region →
        f.cropOk = true →
        f.search = .ok ms →
        (ms.head?).bind (fun m => m.Face) = some face →
        resolveEmployeeFromFaceIdentifiers s.db f.cacheEnv face.FaceId
          face.ExternalImageId none = (db1, some emp) →
        s.processed.contains emp.emp_id = true →
        groupStep ctx f i s
          = dupState s db1 i ((ms.head?).bind (fun m => m.Similarity)) emp) := by
  constructor
  · simp only [groupBranch] at hrun
    split at hrun
    · exact absurd hrun (by simp)
    · split at hrun
      · split at hrun
        · exact absurd hrun (by simp)
        · have h2 := congrArg Prod.snd hrun
          simp only at h2
          injection h2 with hok hpt htot hcnt hres
          rw [← hres]
          have hinit : dedupInv { db := db, processed := [], results := [] } := by
            intro x
            simp [dedupInv, countPunchedFor]
          refine le_trans (groupLoop_dedupInv _ genv.faceDetails 1 _ hinit eid) ?_
          split <;> omega
      · exact absurd hrun (by simp)
  · intro ctx f i s db1 emp ms face region hcrop hcropOk hsearch hface hresolve hdup
    simp only [groupStep, hcrop, hcropOk, hsearch, hface, hresolve,
      Bool.not_true, Bool.false_eq_true, if_false, dupResult, dupState]
    rw [if_pos hdup]

unseal Rat.mul Rat.add Rat.sub Rat.inv in
/-- Witness for C3: in the concrete two-face run both faces resolve to
employee 7; the outcome list holds at most one `punched` entry for
employee 7 (and exactly one punch was recorded), and a face resolving
to the already-processed employee 7 yields the `duplicate` outcome. -/
theorem group_dedup_invariant_witness :
    countPunchedFor (summaryResults c3run) 7 ≤ 1
    ∧ groupStep
        { punchType := "IN", matchThreshold := 90, loc := locSample, userId := none,
          today := "2024-01-01", imageWidth := 640, imageHeight := 480 }
        faceStepSeven 2 { db := dbNoRow, processed := [7], results := [] }
      = dupState { db := dbNoRow, processed := [7], results := [] } dbNoRow 2
          (([matchSeven].head?).bind (fun m => m.Similarity)) empSeven
    ∧ summaryCount c3run = 1 := by
  have H := group_dedup_invariant dbNoRow genvTwoFaces "IN" 90 locSample none
    "2024-01-01" c3run.1 (summaryOk c3run) (summaryPunchType c3run)
    (summaryTotal c3run) (summaryCount c3run) (summaryResults c3run) 7 (by decide)
  refine ⟨H.1, ?_, by decide⟩
  exact H.2
    { punchType := "IN", matchThreshold := 90, loc := locSample, userId := none,
      today := "2024-01-01", imageWidth := 640, imageHeight := 480 }
    faceStepSeven 2 { db := dbNoRow, processed := [7], results := [] } dbNoRow
    empSeven [matchSeven] { FaceId := some "face-7", ExternalImageId := none }
    { left := 0, top := 0, width := 640, height := 480 }
    (by decide) rfl rfl rfl (by decide) (by decide)
